import Mathlib

/-!
Verification of the voice-detector repository (a Streamlit accent-detection
pipeline, `app.py` + `utils.py`) against its natural-language specification.

Strings are modelled as lists of Unicode code points (`List Nat`); the
filesystem as explicit lists of file and directory paths.  External
collaborators (yt-dlp, ffmpeg, AssemblyAI) are modelled by outcome
parameters; everything the repository itself computes is translated
directly from the Python source.
-/

set_option maxRecDepth 20000

deriving instance DecidableEq for Except

namespace VoiceDetector

/-- Code points of a Lean string literal, used to write the program's
string constants. -/
def str (s : String) : List Nat := s.data.map Char.toNat

/-- Model of Python `str.lower` on a single code point (ASCII letters;
the program's inputs of interest are ASCII URLs). -/
def pyToLower (c : Nat) : Nat := if 65 ≤ c ∧ c ≤ 90 then c + 32 else c

/-- Model of Python `str.lower`. -/
def pyLower (s : List Nat) : List Nat := s.map pyToLower

/-- Model of the Python `in` operator on strings: `pyContains sub s`
is true when `sub` occurs contiguously inside `s`. -/
def pyContains (sub : List Nat) : List Nat → Bool
  | [] => sub.isEmpty
  | a :: t => sub.isPrefixOf (a :: t) || pyContains sub (t)

/-- `app.py` line 68: `MAX_FILE_SIZE = 200 * 1024 * 1024`. -/
def MAX_FILE_SIZE : Nat := 200 * 1024 * 1024

/-- `app.py` line 81: the allow-listed host substrings. -/
def valid_domains : List (List Nat) := [str "loom.com", str "youtube.com", str "youtu.be"]

/-- `app.py` line 82: the direct-media extensions. -/
def valid_extensions : List (List Nat) := [str ".mp4", str ".mov", str ".avi", str ".mkv"]

/-- `app.py` lines 76-95, `validate_video_url`: raises (modelled as
`Except.error` with the message) when the URL is empty, returns normally
when a lowercased extension suffix matches, returns normally when a
lowercased host substring matches, and raises otherwise. -/
def validate_video_url (url : List Nat) : Except (List Nat) Unit :=
  if url = [] then .error (str "Please enter a video URL")
  else if valid_extensions.any (fun ext => ext.isSuffixOf (pyLower url)) then .ok ()
  else if valid_domains.any (fun d => pyContains d (pyLower url)) then .ok ()
  else .error (str "Unsupported video URL. Please use: direct video links (ending in .mp4, .mov, .avi, .mkv), Loom videos, YouTube videos (public only)")

/-- `utils.py` lines 30-32, `is_url`: prefix test for the three URL schemes. -/
def is_url (path : List Nat) : Bool :=
  (str "http://").isPrefixOf path || (str "https://").isPrefixOf path ||
    (str "www.").isPrefixOf path

/-- One entry of the list returned by the transcription service
(`transcript.language_identification`): a locale code and a confidence
in `[0,1]`.  Confidence is modelled as a rational. -/
structure LanguageCandidate where
  language_code : List Nat
  confidence : ℚ
deriving DecidableEq

/-- The `accent_info` dict built in `utils.py` lines 255-259. -/
structure AccentInfo where
  accent : List Nat
  language_code : List Nat
  raw_confidence : ℚ
deriving DecidableEq

/-- `utils.py` lines 234-242: the locale-code to display-label table. -/
def accent_map : List (List Nat × List Nat) :=
  [(str "en-US", str "American"),
   (str "en-GB", str "British"),
   (str "en-AU", str "Australian"),
   (str "en-IN", str "Indian"),
   (str "en-CA", str "Canadian"),
   (str "en-IE", str "Irish"),
   (str "en-GB-SCT", str "Scottish")]

/-- `utils.py` line 248: the clarity descriptor computed from the raw
confidence with strict thresholds. -/
def clarity_of (confidence : ℚ) : List Nat :=
  if confidence > 9/10 then str "very clear"
  else if confidence > 7/10 then str "clear"
  else str "moderate"

/-- Model of the Python format `{confidence:.1%}` on a nonnegative
rational: the value times 100 rendered with one decimal digit and a
percent sign (ties rounded as by `round`). -/
def formatPercent1 (q : ℚ) : List Nat :=
  let n : Nat := (round (q * 1000)).toNat
  (Nat.toDigits 10 (n / 10)).map Char.toNat ++ str "." ++
    (Nat.toDigits 10 (n % 10)).map Char.toNat ++ str "%"

/-- `utils.py` lines 222-261: the pure mapping step of `analyze_accent`,
taking the transcription outcome (`none` models a falsy `transcript`,
`some l` models `transcript.language_identification = l`) to the Python
return triple `(accent_info, confidence, summary)`.  The `Except` layer
records that this code runs inside a `try` whose other paths can raise;
every branch of this segment returns normally. -/
def analyze_accent_core (language_identification : Option (List LanguageCandidate)) :
    Except (List Nat) (Option AccentInfo × ℚ × List Nat) :=
  match language_identification with
  | none =>
    .ok (none, 0, str "Could not detect language or accent. Please ensure clear speech in the video.")
  | some [] =>
    .ok (none, 0, str "Could not detect language or accent. Please ensure clear speech in the video.")
  | some (primary_lang :: _) =>
    if (str "en-").isPrefixOf primary_lang.language_code = false then
      .ok (none, 0, str "Non-English speech detected (" ++ primary_lang.language_code ++ str ")")
    else
      let accent := (accent_map.lookup primary_lang.language_code).getD (str "Other English")
      let confidence := primary_lang.confidence
      let clarity := clarity_of confidence
      let summary :=
        str "Detected a " ++ accent ++ str " English accent with " ++
          formatPercent1 confidence ++ str " confidence. The speech quality is " ++
          clarity ++ str ". This analysis is based on the speaker\x27s pronunciation patterns and speech characteristics."
      .ok (some ⟨accent, primary_lang.language_code, confidence⟩, confidence * 100, summary)

/-- The accent label of a returned triple, when the triple carries one. -/
def resultAccent (r : Except (List Nat) (Option AccentInfo × ℚ × List Nat)) :
    Option (List Nat) :=
  match r with
  | .ok (some info, _, _) => some info.accent
  | _ => none

/-- The confidence score of a returned triple, when the triple carries
an accent result. -/
def resultPercent (r : Except (List Nat) (Option AccentInfo × ℚ × List Nat)) :
    Option ℚ :=
  match r with
  | .ok (some _, p, _) => some p
  | _ => none

/-- The filesystem state visible to the pipeline: the existing file
paths and directory paths. -/
structure FS where
  files : List (List Nat)
  dirs : List (List Nat)
deriving DecidableEq

/-- Model of `os.path.exists`. -/
def existsPath (fs : FS) (p : List Nat) : Bool := fs.files.contains p || fs.dirs.contains p

/-- Creating a file (`open(path, "wb").write` or an external tool
writing its output). -/
def touch (p : List Nat) (fs : FS) : FS :=
  if fs.files.contains p then fs else { fs with files := p :: fs.files }

/-- Creating a directory (`tempfile.mkdtemp`). -/
def mkdir (p : List Nat) (fs : FS) : FS :=
  if fs.dirs.contains p then fs else { fs with dirs := p :: fs.dirs }

/-- A path lies strictly inside directory `d` (its string form extends
`d` followed by a path separator). -/
def underDir (d p : List Nat) : Bool := (d ++ [47]).isPrefixOf p

/-- Model of `shutil.rmtree(d, ignore_errors=True)`: removes `d` and
everything beneath it; a missing directory is a no-op. -/
def rmtree (d : List Nat) (fs : FS) : FS :=
  { files := fs.files.filter (fun f => !(underDir d f)),
    dirs := fs.dirs.filter (fun x => !(x == d || underDir d x)) }

/-- `tempfile.gettempdir()`, the system temp root. -/
def gettempdir : List Nat := str "/tmp"

/-- Model of `os.path.dirname` (posixpath): everything up to the last
separator, with trailing separators stripped unless the head is all
separators. -/
def dirname (p : List Nat) : List Nat :=
  let i := p.length - (p.reverse.takeWhile (fun c => c != 47)).length
  let head := p.take i
  if head ≠ [] ∧ head.any (fun c => c != 47) then
    (head.reverse.dropWhile (fun c => c == 47)).reverse
  else head

/-- `utils.py` lines 266-281, `cleanup_files`: best-effort removal of a
file; then, if the parent directory exists and its path starts with the
temp root, recursive removal of that parent directory.  `os.remove` on
a directory raises `IsADirectoryError`, which the bare `except` clause
swallows, ending the function early. -/
def cleanup_files (file_path : List Nat) (fs : FS) : FS :=
  if fs.dirs.contains file_path then fs
  else
    let fs1 := if fs.files.contains file_path then
        { fs with files := fs.files.erase file_path }
      else fs
    let parent_dir := dirname file_path
    if existsPath fs1 parent_dir && gettempdir.isPrefixOf parent_dir then rmtree parent_dir fs1
    else fs1

/-- Outcome of the external ffmpeg transcode inside
`convert_video_to_audio` (`utils.py` lines 81-114): success (with the
fresh `tempfile.mkdtemp` directory the function allocated), an ffmpeg
failure after the directory was allocated, or a validation failure
before any allocation. -/
inductive ConvOutcome
  | ok (temp_dir : List Nat)
  | ffmpegFail (temp_dir : List Nat) (msg : List Nat)
  | invalid (msg : List Nat)
deriving DecidableEq

/-- `utils.py` lines 81-114, `convert_video_to_audio`: validates the
file, allocates a scratch directory, runs ffmpeg to produce
`audio.mp3`, and returns the audio path; failures are re-raised with
the wrapping the source applies on each path. -/
def convert_video_to_audio (video_path : List Nat) (o : ConvOutcome) (fs : FS) :
    Except (List Nat) (List Nat) × FS :=
  if existsPath fs video_path = false then
    (.error (str "Error converting video to audio: File not found"), fs)
  else
    match o with
    | .invalid msg => (.error (str "Error converting video to audio: " ++ msg), fs)
    | .ffmpegFail temp_dir msg =>
      if pyContains (str "Invalid data found when processing input") msg then
        (.error (str "Invalid or corrupted video file"), mkdir temp_dir fs)
      else (.error (str "FFmpeg error: " ++ msg), mkdir temp_dir fs)
    | .ok temp_dir =>
      let fs1 := mkdir temp_dir fs
      let audio_path := temp_dir ++ str "/audio.mp3"
      let fs2 := touch audio_path fs1
      if fs2.files.contains audio_path then (.ok audio_path, fs2)
      else (.error (str "Error converting video to audio: Audio conversion failed"), fs2)

/-- The info dict returned by `yt_dlp.extract_info`: the service id and
the optional `duration` entry. -/
structure YdlInfo where
  id : List Nat
  duration : Option Nat
deriving DecidableEq

/-- Outcome of the yt-dlp call in `download_video`: successful
extraction (the postprocessed audio has been written to the temp root),
a `None` info dict, or a `DownloadError`. -/
inductive YdlOutcome
  | ok (info : YdlInfo)
  | noInfo
  | dlError (msg : List Nat)
deriving DecidableEq

/-- `utils.py` lines 137-189, the URL branch of `download_video`:
yt-dlp downloads the audio to `gettempdir()/{id}.mp3`; the duration
policy is checked afterwards; raises from inside the `try` are wrapped
as `Unexpected error:`, while `DownloadError` handling produces its own
messages. -/
def download_video_url_branch (o : YdlOutcome) (fs : FS) :
    Except (List Nat) (List Nat) × FS :=
  match o with
  | .dlError msg =>
    if pyContains (str "HTTP Error 403") msg then
      (.error (str "Access to this video is forbidden. This might be due to: the video is private or restricted, region restrictions, or anti-bot measures."), fs)
    else (.error (str "Error downloading video: " ++ msg), fs)
  | .noInfo => (.error (str "Unexpected error: Could not extract video information"), fs)
  | .ok info =>
    let audio_path := gettempdir ++ str "/" ++ info.id ++ str ".mp3"
    let fs1 := touch audio_path fs
    match info.duration with
    | some d =>
      if d > 600 then
        (.error (str "Unexpected error: Video is too long. Please use videos under 10 minutes."), fs1)
      else if fs1.files.contains audio_path then (.ok audio_path, fs1)
      else (.error (str "Unexpected error: Audio file was not downloaded successfully"), fs1)
    | none =>
      if fs1.files.contains audio_path then (.ok audio_path, fs1)
      else (.error (str "Unexpected error: Audio file was not downloaded successfully"), fs1)

/-- `utils.py` lines 116-189, `download_video`: dispatch between the
local-file transcode and the yt-dlp download on the `is_url` test. -/
def download_video (path : List Nat) (conv : ConvOutcome) (ydl : YdlOutcome) (fs : FS) :
    Except (List Nat) (List Nat) × FS :=
  if path = [] then (.error (str "No video path or URL provided"), fs)
  else if is_url path = false then convert_video_to_audio path conv fs
  else download_video_url_branch ydl fs

/-- Outcome of the external transcription call inside
`analyze_accent`: the `language_identification` field of the transcript
(`none` for a falsy transcript) or a service exception. -/
inductive TranscribeOutcome
  | ok (language_identification : Option (List LanguageCandidate))
  | raises (msg : List Nat)
deriving DecidableEq

/-- `utils.py` lines 191-264, `analyze_accent`: existence check on the
audio path, then the transcription call and the pure mapping step;
service exceptions are wrapped as `Error analyzing accent:`. -/
def analyze_accent (audio_path : List Nat) (t : TranscribeOutcome) (fs : FS) :
    Except (List Nat) (Option AccentInfo × ℚ × List Nat) :=
  if existsPath fs audio_path = false then .error (str "Audio file not found")
  else
    match t with
    | .ok li => analyze_accent_core li
    | .raises msg => .error (str "Error analyzing accent: " ++ msg)

/-- The per-request inputs and external outcomes of one run of the
file-upload handler. -/
structure UploadEnv where
  file_size : Nat
  temp_dir : List Nat
  conv : ConvOutcome
  ydl : YdlOutcome
  transcribe : TranscribeOutcome

/-- `app.py` lines 152-191, the file-upload handler: size validation,
scratch-directory allocation, saving the upload, acquisition, analysis,
and the cleanup calls; every raise jumps to the `except` block, which
only displays a message and performs no filesystem action.  The
function returns the filesystem state after the run. -/
def handle_upload (env : UploadEnv) (fs : FS) : FS :=
  if env.file_size > MAX_FILE_SIZE then fs
  else
    let fs1 := mkdir env.temp_dir fs
    let temp_path := env.temp_dir ++ str "/uploaded_video.mp4"
    let fs2 := touch temp_path fs1
    match download_video temp_path env.conv env.ydl fs2 with
    | (.error _, fs3) => fs3
    | (.ok audio_path, fs3) =>
      match analyze_accent audio_path env.transcribe fs3 with
      | .error _ => fs3
      | .ok _ => rmtree env.temp_dir (cleanup_files temp_path (cleanup_files audio_path fs3))

/-- The per-request inputs and external outcomes of one run of the URL
handler. -/
structure UrlEnv where
  url : List Nat
  conv : ConvOutcome
  ydl : YdlOutcome
  transcribe : TranscribeOutcome

/-- `app.py` lines 194-221, the URL handler: runs only for a nonempty
URL, validates it, acquires the audio, analyzes it, and calls
`cleanup_files` on the audio path; every raise jumps to the `except`
block, which performs no filesystem action. -/
def handle_url (env : UrlEnv) (fs : FS) : FS :=
  if env.url = [] then fs
  else
    match validate_video_url env.url with
    | .error _ => fs
    | .ok _ =>
      match download_video env.url env.conv env.ydl fs with
      | (.error _, fs1) => fs1
      | (.ok audio_path, fs1) =>
        match analyze_accent audio_path env.transcribe fs1 with
        | .error _ => fs1
        | .ok _ => cleanup_files audio_path fs1

/-- Evaluation of the mapping step on a single candidate whose code has
the `en-` prefix: label lookup, scaling, and summary assembly. -/
theorem analyze_accent_core_en (code : List Nat) (c : ℚ)
    (hen : (str "en-").isPrefixOf code = true) :
    analyze_accent_core (some [⟨code, c⟩]) =
      .ok (some ⟨(accent_map.lookup code).getD (str "Other English"), code, c⟩, c * 100,
        str "Detected a " ++ (accent_map.lookup code).getD (str "Other English") ++
          str " English accent with " ++ formatPercent1 c ++
          str " confidence. The speech quality is " ++ clarity_of c ++
          str ". This analysis is based on the speaker\x27s pronunciation patterns and speech characteristics.") := by
  simp [analyze_accent_core, hen]

/-- Bridging lemma between the executable prefix test and the
inductive prefix relation. -/
theorem isPrefixOf_eq_true_iff (as bs : List Nat) : as.isPrefixOf bs = true ↔ as <+: bs :=
  List.isPrefixOf_iff_prefix

/-- A true prefix test yields an append decomposition. -/
theorem exists_append_of_isPrefixOf {l p : List Nat} (h : l.isPrefixOf p = true) :
    ∃ t, p = l ++ t := by
  obtain ⟨t, ht⟩ := (isPrefixOf_eq_true_iff l p).mp h
  exact ⟨t, ht.symm⟩

/-- The lowercasing map is idempotent on a code point. -/
theorem pyToLower_idem (n : Nat) : pyToLower (pyToLower n) = pyToLower n := by
  unfold pyToLower
  split
  · next h => rw [if_neg (by omega)]
  · rfl

/-- Python lowercasing is idempotent. -/
theorem pyLower_idem (s : List Nat) : pyLower (pyLower s) = pyLower s := by
  induction s with
  | nil => rfl
  | cons a t ih =>
    simp only [pyLower, List.map_cons] at ih ⊢
    rw [pyToLower_idem, ih]

/-- A freshly touched file is present. -/
theorem contains_touch_self (p : List Nat) (fs : FS) :
    (touch p fs).files.contains p = true := by
  unfold touch
  split
  · next h => exact h
  · simp [List.contains_cons]

/-- A freshly touched file is a member of the file list. -/
theorem mem_files_touch_self (p : List Nat) (fs : FS) : p ∈ (touch p fs).files := by
  simpa using contains_touch_self p fs

/-- Touching a file preserves existing files. -/
theorem mem_files_touch_mono (p q : List Nat) (fs : FS) (h : q ∈ fs.files) :
    q ∈ (touch p fs).files := by
  unfold touch
  split
  · exact h
  · exact List.mem_cons_of_mem _ h

/-- Creating a directory leaves the file list unchanged. -/
theorem mkdir_files (p : List Nat) (fs : FS) : (mkdir p fs).files = fs.files := by
  unfold mkdir
  split <;> rfl

/-- A freshly touched file exists. -/
theorem existsPath_touch_self (p : List Nat) (fs : FS) :
    existsPath (touch p fs) p = true := by
  simp only [existsPath, Bool.or_eq_true]
  exact Or.inl (contains_touch_self p fs)

/-- A path whose string form starts with the separator is not
classified as a URL. -/
theorem is_url_slash (rest : List Nat) : is_url (47 :: rest) = false := by
  simp only [is_url]
  rw [show (str "http://") = 104 :: str "ttp://" from rfl,
      show (str "https://") = 104 :: str "ttps://" from rfl,
      show (str "www.") = 119 :: str "ww." from rfl]
  simp [List.isPrefixOf_cons₂]

/-- C9: an empty candidate sequence yields the Absent outcome (no
accent info) with the undetermined message, as a normal non-raising
completion of the mapping step, not an error. -/
theorem empty_candidates_undetermined :
    analyze_accent_core (some []) =
      .ok (none, 0,
        str "Could not detect language or accent. Please ensure clear speech in the video.") := rfl

/-- C6: the clarity descriptor uses boundary-exact strict thresholds on
the raw confidence: 0.90 yields "clear" (not "very clear"), 0.901
yields "very clear", 0.70 yields "moderate", 0.701 yields "clear";
in general confidence above 0.9 gives "very clear", otherwise above
0.7 gives "clear", otherwise "moderate"; and the mapping step embeds
this descriptor of the raw confidence in its summary. -/
theorem clarity_boundary_exact (c : ℚ) :
    clarity_of (90/100) = str "clear" ∧
    clarity_of (901/1000) = str "very clear" ∧
    clarity_of (70/100) = str "moderate" ∧
    clarity_of (701/1000) = str "clear" ∧
    (c > 9/10 → clarity_of c = str "very clear") ∧
    (¬ c > 9/10 → c > 7/10 → clarity_of c = str "clear") ∧
    (¬ c > 9/10 → ¬ c > 7/10 → clarity_of c = str "moderate") ∧
    analyze_accent_core (some [⟨str "en-GB", 95/100⟩]) =
      .ok (some ⟨str "British", str "en-GB", 95/100⟩, 95,
        str "Detected a British English accent with 95.0% confidence. The speech quality is very clear. This analysis is based on the speaker\x27s pronunciation patterns and speech characteristics.") := by
  refine ⟨?_, ?_, ?_, ?_, ?_, ?_, ?_, ?_⟩
  · unfold clarity_of
    rw [if_neg (by norm_num), if_pos (by norm_num)]
  · unfold clarity_of
    rw [if_pos (by norm_num)]
  · unfold clarity_of
    rw [if_neg (by norm_num), if_neg (by norm_num)]
  · unfold clarity_of
    rw [if_neg (by norm_num), if_pos (by norm_num)]
  · intro h
    unfold clarity_of
    rw [if_pos h]
  · intro h1 h2
    unfold clarity_of
    rw [if_neg h1, if_pos h2]
  · intro h1 h2
    unfold clarity_of
    rw [if_neg h1, if_neg h2]
  · rw [analyze_accent_core_en _ _ (by decide)]
    have hl : accent_map.lookup (str "en-GB") = some (str "British") := by decide
    have hm : (95:ℚ)/100 * 100 = 95 := by norm_num
    have hcl : clarity_of (95/100) = str "very clear" := by
      unfold clarity_of
      rw [if_pos (by norm_num : ((95:ℚ)/100 > 9/10))]
    have hf : formatPercent1 (95/100) = str "95.0%" := by
      unfold formatPercent1
      rw [show round ((95/100 : ℚ) * 1000) = 950 by norm_num [round_eq]]
      decide
    rw [hl, hm, hcl, hf]
    simp only [Option.getD_some, Except.ok.injEq, Prod.mk.injEq]
    exact ⟨trivial, trivial, by decide⟩

/-- C6 witness: a confidence of 1 is above the 0.9 threshold and the
descriptor is "very clear". -/
theorem clarity_boundary_exact_witness : clarity_of 1 = str "very clear" :=
  (clarity_boundary_exact 1).2.2.2.2.1 (by norm_num)

/-- C7: each locale code present in the accent table maps to exactly
that table label, and every code starting with "en-" that is absent
from the table maps to "Other English" rather than failing. -/
theorem accent_table_labels (c : ℚ) :
    resultAccent (analyze_accent_core (some [⟨str "en-US", c⟩])) = some (str "American") ∧
    resultAccent (analyze_accent_core (some [⟨str "en-GB", c⟩])) = some (str "British") ∧
    resultAccent (analyze_accent_core (some [⟨str "en-AU", c⟩])) = some (str "Australian") ∧
    resultAccent (analyze_accent_core (some [⟨str "en-IN", c⟩])) = some (str "Indian") ∧
    resultAccent (analyze_accent_core (some [⟨str "en-CA", c⟩])) = some (str "Canadian") ∧
    resultAccent (analyze_accent_core (some [⟨str "en-IE", c⟩])) = some (str "Irish") ∧
    resultAccent (analyze_accent_core (some [⟨str "en-GB-SCT", c⟩])) = some (str "Scottish") ∧
    (∀ code : List Nat, (str "en-").isPrefixOf code = true →
      accent_map.lookup code = none →
      resultAccent (analyze_accent_core (some [⟨code, c⟩])) = some (str "Other English")) := by
  refine ⟨rfl, rfl, rfl, rfl, rfl, rfl, rfl, ?_⟩
  intro code hen hlook
  simp only [analyze_accent_core]
  rw [hen, if_neg (by decide), hlook]
  rfl

/-- C7 witness: the en-NZ code is absent from the table and maps to
"Other English". -/
theorem accent_table_labels_witness :
    resultAccent (analyze_accent_core (some [⟨str "en-NZ", (1:ℚ)/2⟩])) =
      some (str "Other English") :=
  (accent_table_labels ((1:ℚ)/2)).2.2.2.2.2.2.2 (str "en-NZ") (by decide) (by decide)

/-- C8: for a candidate with confidence in the unit interval that is
detected as English, the returned confidence is the raw confidence
times 100 on the 0-100 scale; concretely 0.873 maps to exactly 87.3. -/
theorem confidence_percent_scaling (code : List Nat) (c : ℚ)
    (h0 : 0 ≤ c) (h1 : c ≤ 1)
    (hen : (str "en-").isPrefixOf code = true) :
    resultPercent (analyze_accent_core (some [⟨code, c⟩])) = some (c * 100) ∧
    resultPercent (analyze_accent_core (some [⟨str "en-US", (873:ℚ)/1000⟩])) =
      some ((873:ℚ)/10) := by
  constructor
  · simp only [analyze_accent_core]
    rw [hen, if_neg (by decide)]
    rfl
  · have h : resultPercent (analyze_accent_core (some [⟨str "en-US", (873:ℚ)/1000⟩])) =
        some ((873:ℚ)/1000 * 100) := rfl
    rw [h]
    norm_num

/-- C8 witness: instantiation at code en-US with confidence 873/1000. -/
theorem confidence_percent_scaling_witness :
    resultPercent (analyze_accent_core (some [⟨str "en-US", (873:ℚ)/1000⟩])) =
      some ((873:ℚ)/1000 * 100) :=
  (confidence_percent_scaling (str "en-US") ((873:ℚ)/1000)
    (by norm_num) (by norm_num) (by decide)).1

/-- C10: URL validation gives the same verdict on a URL and on its
lowercased form, because both the extension check and the host check
are applied to the lowercased URL; "https://example.com/CLIP.MP4"
passes validation. -/
theorem validate_video_url_case_insensitive :
    (∀ u : List Nat, validate_video_url (pyLower u) = validate_video_url u) ∧
    (validate_video_url (str "https://example.com/CLIP.MP4")).isOk = true := by
  constructor
  · intro u
    by_cases hu : u = []
    · subst hu
      rfl
    · have h1 : pyLower u ≠ [] := by simpa [pyLower] using hu
      unfold validate_video_url
      rw [pyLower_idem, if_neg h1, if_neg hu]
  · decide

/-- C10 witness: instantiation at an upper-case Loom URL. -/
theorem validate_video_url_case_insensitive_witness :
    validate_video_url (pyLower (str "HTTPS://LOOM.COM/X")) =
      validate_video_url (str "HTTPS://LOOM.COM/X") :=
  validate_video_url_case_insensitive.1 (str "HTTPS://LOOM.COM/X")

/-- C1 counterexample: the URL "ftp://x.com/a.mp4" is accepted by
`validate_video_url` because it ends with ".mp4"; the function performs
no scheme check, so the claim that this URL fails validation is false
on the code. -/
theorem validate_video_url_ftp_accepted :
    (validate_video_url (str "ftp://x.com/a.mp4")).isOk = true := by decide

/-- C1 (amended): validation rejects exactly when the URL is empty or
neither the lowercased extension-suffix check nor the lowercased
host-substring check succeeds; "https://example.com/clip.mp4" passes
validation, and "ftp://x.com/a.mp4" also passes validation (extension
match; no scheme check is performed). -/
theorem validate_video_url_reject_iff (url : List Nat) :
    ((validate_video_url url).isOk = false ↔
      url = [] ∨
        (valid_extensions.any (fun ext => ext.isSuffixOf (pyLower url)) = false ∧
         valid_domains.any (fun d => pyContains d (pyLower url)) = false)) ∧
    (validate_video_url (str "https://example.com/clip.mp4")).isOk = true ∧
    (validate_video_url (str "ftp://x.com/a.mp4")).isOk = true := by
  refine ⟨?_, by decide, by decide⟩
  by_cases h0 : url = []
  · simp [validate_video_url, h0, Except.isOk, Except.toBool]
  · cases hext : valid_extensions.any (fun ext => ext.isSuffixOf (pyLower url)) with
    | true => simp [validate_video_url, h0, hext, Except.isOk, Except.toBool]
    | false =>
      cases hdom : valid_domains.any (fun d => pyContains d (pyLower url)) with
      | true => simp [validate_video_url, h0, hext, hdom, Except.isOk, Except.toBool]
      | false => simp [validate_video_url, h0, hext, hdom, Except.isOk, Except.toBool]

/-- C1 witness: instantiation at the direct-extension URL of the
claim. -/
theorem validate_video_url_reject_iff_witness :
    (validate_video_url (str "https://example.com/clip.mp4")).isOk = true :=
  (validate_video_url_reject_iff (str "https://example.com/clip.mp4")).2.1

/-- C3 counterexample: the code "en" starts with the two-letter prefix
"en", yet the mapping step returns the non-English Absent outcome for
it, because the source tests the three-character prefix "en-". -/
theorem non_english_prefix_counterexample :
    (str "en").isPrefixOf (str "en") = true ∧
    analyze_accent_core (some [⟨str "en", (1:ℚ)/2⟩]) =
      .ok (none, 0, str "Non-English speech detected (en)") := ⟨by decide, rfl⟩

/-- C3 (amended): for a non-empty candidate list the mapping step
returns Absent with the non-English reason carrying the actual code
exactly when the first candidate code does not start with "en-"; any
first candidate whose code starts with "en-" proceeds to label lookup
regardless of confidence. -/
theorem non_english_iff (primary : LanguageCandidate) (rest : List LanguageCandidate) :
    (analyze_accent_core (some (primary :: rest)) =
        .ok (none, 0, str "Non-English speech detected (" ++ primary.language_code ++ str ")")
      ↔ (str "en-").isPrefixOf primary.language_code = false) ∧
    ((str "en-").isPrefixOf primary.language_code = true →
      ∃ info summary, analyze_accent_core (some (primary :: rest)) =
        .ok (some info, primary.confidence * 100, summary)) := by
  constructor
  · constructor
    · intro h
      cases hb : (str "en-").isPrefixOf primary.language_code with
      | false => rfl
      | true =>
        simp only [analyze_accent_core] at h
        rw [hb, if_neg (by decide)] at h
        simp at h
    · intro h
      simp only [analyze_accent_core]
      rw [h, if_pos rfl]
  · intro h
    have he : analyze_accent_core (some (primary :: rest)) =
        .ok (some ⟨(accent_map.lookup primary.language_code).getD (str "Other English"),
              primary.language_code, primary.confidence⟩,
          primary.confidence * 100,
          str "Detected a " ++
            (accent_map.lookup primary.language_code).getD (str "Other English") ++
            str " English accent with " ++ formatPercent1 primary.confidence ++
            str " confidence. The speech quality is " ++ clarity_of primary.confidence ++
            str ". This analysis is based on the speaker\x27s pronunciation patterns and speech characteristics.") := by
      simp only [analyze_accent_core]
      rw [h, if_neg (by decide)]
    exact ⟨_, _, he⟩

/-- C3 witness: a candidate with code en-AU proceeds to label lookup
and the scaled confidence. -/
theorem non_english_iff_witness :
    ∃ info summary, analyze_accent_core (some [⟨str "en-AU", (1:ℚ)/2⟩]) =
      .ok (some info, (1:ℚ)/2 * 100, summary) :=
  (non_english_iff ⟨str "en-AU", (1:ℚ)/2⟩ []).2 (by decide)

/-- C4 counterexample: with a reported duration of 601 seconds the URL
branch raises the duration error, but the already-extracted audio
artifact remains on disk afterwards, so the claim that cleanup is still
invoked is false on the code. -/
theorem duration_exceeded_counterexample :
    download_video_url_branch (.ok ⟨str "abc", some 601⟩) ⟨[], [str "/tmp"]⟩ =
      (.error (str "Unexpected error: Video is too long. Please use videos under 10 minutes."),
       ⟨[str "/tmp/abc.mp3"], [str "/tmp"]⟩) := by decide

/-- C4 (amended): whenever the adapter reports a duration above 600
seconds the core raises the duration error even though extraction
already completed, but it invokes no cleanup: the audio artifact is
still present afterwards. -/
theorem duration_exceeded_no_cleanup (id : List Nat) (d : Nat) (fs : FS) (hd : d > 600) :
    (download_video_url_branch (.ok ⟨id, some d⟩) fs).1 =
      .error (str "Unexpected error: Video is too long. Please use videos under 10 minutes.") ∧
    (gettempdir ++ str "/" ++ id ++ str ".mp3") ∈
      (download_video_url_branch (.ok ⟨id, some d⟩) fs).2.files := by
  simp only [download_video_url_branch]
  rw [if_pos hd]
  exact ⟨rfl, mem_files_touch_self _ _⟩

/-- C4 witness: instantiation at id "abc" and duration 601 on a temp
root holding no files. -/
theorem duration_exceeded_no_cleanup_witness :
    (download_video_url_branch (.ok ⟨str "abc", some 601⟩) ⟨[], [str "/tmp"]⟩).1 =
      .error (str "Unexpected error: Video is too long. Please use videos under 10 minutes.") ∧
    (gettempdir ++ str "/" ++ str "abc" ++ str ".mp3") ∈
      (download_video_url_branch (.ok ⟨str "abc", some 601⟩) ⟨[], [str "/tmp"]⟩).2.files :=
  duration_exceeded_no_cleanup (str "abc") 601 ⟨[], [str "/tmp"]⟩ (by norm_num)

/-- C5: running `cleanup_files` on a URL-download artifact that lives
directly under the system temp root recursively removes the temp root
itself, deleting another concurrent instance's artifacts, contrary to
the per-instance ownership the spec states: here the other instance's
file "/tmp/tmpOTHER/uploaded_video.mp4" exists beforehand and the
whole filesystem under the temp root is gone afterwards. -/
theorem cleanup_files_destroys_other_instances :
    (str "/tmp/tmpOTHER/uploaded_video.mp4") ∈
      (FS.mk [str "/tmp/abc123.mp3", str "/tmp/tmpOTHER/uploaded_video.mp4"]
        [str "/tmp", str "/tmp/tmpOTHER"]).files ∧
    cleanup_files (str "/tmp/abc123.mp3")
      ⟨[str "/tmp/abc123.mp3", str "/tmp/tmpOTHER/uploaded_video.mp4"],
       [str "/tmp", str "/tmp/tmpOTHER"]⟩ = ⟨[], []⟩ := ⟨by decide, by decide⟩

/-- C2 counterexample: in an upload run where the analysis step raises,
the handler's except block performs no cleanup, and both the saved
upload copy and the converted audio file remain under the run's temp
directories, so the claim that no files remain is false on the code. -/
theorem upload_handler_no_cleanup_on_exception :
    (str "/tmp/tmpA/uploaded_video.mp4") ∈
      (handle_upload ⟨100, str "/tmp/tmpA", .ok (str "/tmp/tmpB"), .noInfo,
        .raises (str "service unavailable")⟩ ⟨[], [str "/tmp"]⟩).files ∧
    (str "/tmp/tmpB/audio.mp3") ∈
      (handle_upload ⟨100, str "/tmp/tmpA", .ok (str "/tmp/tmpB"), .noInfo,
        .raises (str "service unavailable")⟩ ⟨[], [str "/tmp"]⟩).files := ⟨by decide, by decide⟩

/-- C2 (amended): the upload handler cleans up only when acquisition
and analysis both return: a successful run removes every artifact it
allocated, while a run whose analysis step raises keeps the saved
upload copy on disk because the except block performs no cleanup. -/
theorem upload_cleanup_only_on_success (env : UploadEnv) (fs : FS) (adir msg : List Nat)
    (hsize : env.file_size ≤ MAX_FILE_SIZE)
    (htd : (str "/tmp/").isPrefixOf env.temp_dir = true)
    (hconv : env.conv = .ok adir)
    (htr : env.transcribe = .raises msg) :
    (env.temp_dir ++ str "/uploaded_video.mp4") ∈ (handle_upload env fs).files ∧
    handle_upload ⟨100, str "/tmp/tmpA", .ok (str "/tmp/tmpB"), .noInfo, .ok (some [])⟩
      ⟨[], [str "/tmp"]⟩ = ⟨[], [str "/tmp"]⟩ := by
  refine ⟨?_, by decide⟩
  obtain ⟨t, ht⟩ := exists_append_of_isPrefixOf htd
  have hne : env.temp_dir ++ str "/uploaded_video.mp4" ≠ [] := by
    rw [ht, show str "/tmp/" = 47 :: str "tmp/" from rfl]
    simp
  have hurl : is_url (env.temp_dir ++ str "/uploaded_video.mp4") = false := by
    rw [ht, show str "/tmp/" = 47 :: str "tmp/" from rfl, List.cons_append, List.cons_append]
    exact is_url_slash _
  have hdl : ∀ g : FS, download_video (env.temp_dir ++ str "/uploaded_video.mp4") env.conv env.ydl
      (touch (env.temp_dir ++ str "/uploaded_video.mp4") g) =
      (.ok (adir ++ str "/audio.mp3"),
       touch (adir ++ str "/audio.mp3")
         (mkdir adir (touch (env.temp_dir ++ str "/uploaded_video.mp4") g))) := by
    intro g
    unfold download_video
    rw [if_neg hne, if_pos hurl, hconv]
    unfold convert_video_to_audio
    rw [existsPath_touch_self, if_neg (by decide)]
    simp only []
    rw [contains_touch_self, if_pos rfl]
  have han : ∀ g : FS, analyze_accent (adir ++ str "/audio.mp3") env.transcribe
      (touch (adir ++ str "/audio.mp3") g) =
      .error (str "Error analyzing accent: " ++ msg) := by
    intro g
    unfold analyze_accent
    rw [existsPath_touch_self, if_neg (by decide), htr]
  have hrun : handle_upload env fs =
      touch (adir ++ str "/audio.mp3")
        (mkdir adir (touch (env.temp_dir ++ str "/uploaded_video.mp4") (mkdir env.temp_dir fs))) := by
    unfold handle_upload
    rw [if_neg (by omega)]
    simp only []
    rw [hdl (mkdir env.temp_dir fs)]
    simp only []
    rw [han (mkdir adir (touch (env.temp_dir ++ str "/uploaded_video.mp4") (mkdir env.temp_dir fs)))]
  rw [hrun]
  refine mem_files_touch_mono _ _ _ ?_
  rw [mkdir_files]
  exact mem_files_touch_self _ _

/-- C2 witness: instantiation at a concrete failing run and the
concrete successful run. -/
theorem upload_cleanup_only_on_success_witness :
    (str "/tmp/tmpC" ++ str "/uploaded_video.mp4") ∈
      (handle_upload ⟨100, str "/tmp/tmpC", .ok (str "/tmp/tmpD"), .noInfo,
        .raises (str "boom")⟩ ⟨[], [str "/tmp"]⟩).files ∧
    handle_upload ⟨100, str "/tmp/tmpA", .ok (str "/tmp/tmpB"), .noInfo, .ok (some [])⟩
      ⟨[], [str "/tmp"]⟩ = ⟨[], [str "/tmp"]⟩ :=
  upload_cleanup_only_on_success
    ⟨100, str "/tmp/tmpC", .ok (str "/tmp/tmpD"), .noInfo, .raises (str "boom")⟩
    ⟨[], [str "/tmp"]⟩ (str "/tmp/tmpD") (str "boom")
    (by norm_num [MAX_FILE_SIZE]) (by decide) rfl rfl

end VoiceDetector
